import Mathlib

/-!
# Verification of the URL-shortener click-analytics core

Shallow embedding of the analytics-bearing parts of the repository:

* `src/unnamed/part_001` — the mongoose `Url` model: `recordClick`,
  `getAnalyticsSummary`, `getTopFromMaps`, `checkExpiration`, and the
  `pre('save')` hook.
* `src/backend/routes/urls.js` — the redirect route (`GET /:shortCode`),
  user-agent classification, and the `/stats/summary` aggregator.
* `src/unnamed/part_000` — the alternative `/stats/summary` aggregator
  (growth percentages).

Modelling conventions:
* JS `Date` values are modelled as `Nat` timestamps; calendar days
  (midnight-normalized dates) as `Nat` day numbers.
* JS numbers are modelled as `Rat`.  A JS division whose denominator is 0
  produces a non-finite double (`NaN` or `±Infinity`); such results are
  modelled as `none : Option Rat`.
* Fields that a JS object may simply lack are `Option`s; JS truthiness of
  a string-or-absent value is `jsTruthy` (absent and `""` are falsy).
* `geoip.lookup` (the external geoip-lite database) is an opaque parameter
  `g : String → Option GeoInfo`; it returns `none` for private/unresolvable
  addresses.
* `express-useragent`'s parse result is an opaque `UAResult` record; the
  route code only reads the fields modelled here.
* The `pre('save')` hook's QR-code generation (an external library call
  writing the `qrCode` string field) is omitted; no modelled field reads it.
-/

namespace UrlShortner

/-- `status` enum of the url schema (`part_001` lines 124-128). -/
inductive Status where
  | active
  | inactive
  | expired
  | blocked
deriving DecidableEq, Repr

/-- `settings.redirectType` enum (`part_001` lines 186-190). -/
inductive RedirectType where
  | direct
  | delayed
  | interstitial
deriving DecidableEq, Repr

/-- Per-link `settings` subdocument (`part_001` lines 173-195), with the
schema defaults. -/
structure Settings where
  trackReferrer : Bool := true
  trackLocation : Bool := true
  trackDeviceInfo : Bool := true
  redirectType : RedirectType := .direct
  redirectDelay : Nat := 0
deriving DecidableEq, Repr

/-- One raw click event (`analyticsSchema`, `part_001` lines 6-84).
Geo and classification fields are `Option`s because the data object built
by the route may simply lack them. -/
structure ClickData where
  timestamp : Nat := 0
  ipAddress : String := ""
  userAgent : String := ""
  referrer : String := ""
  country : Option String := none
  city : Option String := none
  region : Option String := none
  timezone : Option String := none
  /-- `[longitude, latitude]` pair. -/
  location : Option (Rat × Rat) := none
  device : Option String := none
  browser : Option String := none
  browserVersion : Option String := none
  os : Option String := none
  platform : Option String := none
  language : Option String := none
  timeOnPage : Option Int := none
  exitPage : Option String := none
deriving DecidableEq, Repr

/-- The `timeOnPage : { total, count }` accumulator of a daily stat. -/
structure TimeAgg where
  total : Int := 0
  count : Nat := 0
deriving DecidableEq, Repr

/-- One per-day rollup (`dailyStats` entries, `part_001` lines 152-165).
The four category maps are association lists mirroring JS `Map`
insertion-order semantics. -/
structure DailyStat where
  date : Nat
  clicks : Nat := 0
  uniqueVisitors : Nat := 0
  countries : List (String × Nat) := []
  devices : List (String × Nat) := []
  browsers : List (String × Nat) := []
  referrers : List (String × Nat) := []
  timeOnPage : TimeAgg := {}
  bounceRate : Rat := 0
deriving DecidableEq, Repr

/-- One `uniqueVisitors` ledger entry (`part_001` lines 166-172). -/
structure Visitor where
  ipAddress : String
  firstVisit : Nat
  lastVisit : Nat
  totalVisits : Nat
  averageTimeOnPage : Rat := 0
deriving DecidableEq, Repr

/-- The `Url` aggregate (`urlSchema`, `part_001` lines 86-204), restricted to
the fields the analytics core reads or writes.  Field defaults are the
schema defaults of a freshly created link. -/
structure Url where
  originalUrl : String := ""
  shortCode : String := ""
  customAlias : Option String := none
  status : Status := .active
  expiresAt : Option Nat := none
  isExpired : Bool := false
  clicks : Nat := 0
  uniqueClicks : Nat := 0
  analytics : List ClickData := []
  dailyStats : List DailyStat := []
  uniqueVisitors : List Visitor := []
  settings : Settings := {}
  createdAt : Nat := 0
  updatedAt : Nat := 0
deriving DecidableEq, Repr

/-- A freshly created link: every counter and log at its schema default. -/
def freshUrl : Url := {}

/-- Result of `geoip.lookup` when it resolves (geoip-lite record fields the
code reads; `ll` is `[latitude, longitude]`). -/
structure GeoInfo where
  country : String
  city : String
  region : String
  timezone : String
  ll : Rat × Rat
deriving DecidableEq, Repr

/-- JS truthiness of a possibly-absent string: `undefined` and `""` are
falsy. -/
def jsTruthy : Option String → Bool
  | none => false
  | some s => s ≠ ""

/-- Read a JS `Map` (association list) with default 0, as in
`(map.get(k) || 0)`. -/
def mapGetD (m : List (String × Nat)) (k : String) : Nat :=
  match m.find? (fun p => p.1 = k) with
  | some p => p.2
  | none => 0

/-- JS `Map.set`: update an existing key in place, else append (insertion
order preserved). -/
def mapSet : List (String × Nat) → String → Nat → List (String × Nat)
  | [], k, v => [(k, v)]
  | p :: rest, k, v => if p.1 = k then (k, v) :: rest else p :: mapSet rest k v

/-- `map.set(k, (map.get(k) || 0) + 1)` — the per-category bump used by
`recordClick`. -/
def bumpMap (m : List (String × Nat)) (k : String) : List (String × Nat) :=
  mapSet m k (mapGetD m k + 1)

/-- The last `n` elements of a list, in order — the effect of JS
`slice(-n)` on a list longer than `n` (and of `slice(-n)` generally, since
`drop` of an over-large count is the identity). -/
def lastN (n : Nat) (l : List α) : List α := l.drop (l.length - n)

/-- The `pre('save')` hook (`part_001` lines 217-226, QR generation
omitted): refresh `updatedAt`; when `expiresAt` is set, recompute
`isExpired` as `now > expiresAt` and force `status` to `expired` when so. -/
def preSaveHook (now : Nat) (l : Url) : Url :=
  match l.expiresAt with
  | none => { l with updatedAt := now }
  | some t =>
    if t < now then { l with updatedAt := now, isExpired := true, status := .expired }
    else { l with updatedAt := now, isExpired := false }

/-- `checkExpiration` (`part_001` lines 423-432): no-op returning `false`
when `expiresAt` is unset; otherwise compute `now > expiresAt`, and on the
first detection set `isExpired`, transition `status` to `expired` and save
(which runs the pre-save hook). -/
def checkExpiration (now : Nat) (l : Url) : Bool × Url :=
  match l.expiresAt with
  | none => (false, l)
  | some t =>
    let isExp : Bool := decide (t < now)
    if isExp && !l.isExpired then
      (true, preSaveHook now { l with isExpired := true, status := .expired })
    else (isExp, l)

/-- The redirect route's gating decision (`urls.js` lines 241-307): after a
link is resolved, the route returns 410 when `checkExpiration()` is true and
otherwise proceeds to record the click and respond (an HTTP redirect to
`originalUrl`, or the delayed meta-refresh page).  First component: `true`
iff the route proceeds past the expiration gate; second: the possibly
transitioned link. -/
def redirectGateway (now : Nat) (l : Url) : Bool × Url :=
  let r := checkExpiration now l
  (!r.1, r.2)

/-- The geo-enrichment step opening `recordClick` (`part_001` lines
257-270): when `data.ipAddress` is truthy and `settings.trackLocation` is
on, look the address up and, only when the lookup resolves, copy the geo
fields onto the event (coordinates stored `[longitude, latitude]`). -/
def enrichGeo (s : Settings) (g : String → Option GeoInfo) (d : ClickData) : ClickData :=
  if d.ipAddress ≠ "" ∧ s.trackLocation = true then
    match g d.ipAddress with
    | some geo =>
      { d with country := some geo.country, city := some geo.city,
               region := some geo.region, timezone := some geo.timezone,
               location := some (geo.ll.2, geo.ll.1) }
    | none => d
  else d

/-- The unique-visitor ledger update (`part_001` lines 275-289):
`findIndex` by IP; on a hit refresh `lastVisit` and bump `totalVisits`
in place, on a miss push a fresh ledger entry.  Second component: whether
the IP was already present (`visitorIndex !== -1`). -/
def updateVisitors (now : Nat) : List Visitor → String → List Visitor × Bool
  | [], ip =>
    ([{ ipAddress := ip, firstVisit := now, lastVisit := now,
        totalVisits := 1, averageTimeOnPage := 0 }], false)
  | v :: rest, ip =>
    if v.ipAddress = ip then
      ({ v with lastVisit := now, totalVisits := v.totalVisits + 1 } :: rest, true)
    else
      ((v :: (updateVisitors now rest ip).1), (updateVisitors now rest ip).2)

/-- A just-created daily stat for `today` (`part_001` lines 299-315). -/
def emptyDailyStat (today : Nat) : DailyStat := { date := today }

/-- The in-place mutations applied to today's daily stat (`part_001` lines
317-350): bump `clicks`; bump `uniqueVisitors` iff this call found no prior
ledger entry; merge truthy `country`/`device`/`browser`/`referrer` into the
category maps; accumulate a truthy `timeOnPage` into the total/count pair. -/
def bumpDaily (d : ClickData) (isReturning : Bool) (st : DailyStat) : DailyStat :=
  let st := { st with clicks := st.clicks + 1 }
  let st := if isReturning then st else { st with uniqueVisitors := st.uniqueVisitors + 1 }
  let st := if jsTruthy d.country then
      { st with countries := bumpMap st.countries (d.country.getD "") } else st
  let st := if jsTruthy d.device then
      { st with devices := bumpMap st.devices (d.device.getD "") } else st
  let st := if jsTruthy d.browser then
      { st with browsers := bumpMap st.browsers (d.browser.getD "") } else st
  let st := if d.referrer ≠ "" then
      { st with referrers := bumpMap st.referrers d.referrer } else st
  match d.timeOnPage with
  | some tp =>
    if tp ≠ 0 then
      { st with timeOnPage := { total := st.timeOnPage.total + tp,
                                count := st.timeOnPage.count + 1 } }
    else st
  | none => st

/-- Locate today's daily stat by calendar-day equality and mutate it in
place, or push a freshly created one and mutate that (`part_001` lines
291-318 — in JS the plain object is pushed and then mutated through the
retained reference). -/
def updateDailyStats (today : Nat) (f : DailyStat → DailyStat) :
    List DailyStat → List DailyStat
  | [] => [f (emptyDailyStat today)]
  | st :: rest =>
    if st.date = today then f st :: rest
    else st :: updateDailyStats today f rest

/-- `recordClick` (`part_001` lines 254-366): geo-enrich the event, bump the
click counter, dedupe the visitor, roll the event into today's daily stat,
append it to the bounded analytics log, prune both bounded logs with
`slice(-1000)` / `slice(-30)`, and save (running the pre-save hook).
`now` is the call's wall-clock timestamp, `today` its midnight-normalized
calendar day. -/
def recordClick (g : String → Option GeoInfo) (now today : Nat)
    (l : Url) (d0 : ClickData) : Url :=
  let d := enrichGeo l.settings g d0
  let r := updateVisitors now l.uniqueVisitors d.ipAddress
  let uniq := if r.2 then l.uniqueClicks else l.uniqueClicks + 1
  let daily := updateDailyStats today (bumpDaily d r.2) l.dailyStats
  let analytics := l.analytics ++ [d]
  let analytics := if 1000 < analytics.length then lastN 1000 analytics else analytics
  let daily := if 30 < daily.length then lastN 30 daily else daily
  preSaveHook now
    { l with clicks := l.clicks + 1, uniqueClicks := uniq,
             uniqueVisitors := r.1, dailyStats := daily, analytics := analytics }

/-- One call of a `recordClick` sequence: its wall-clock time, its calendar
day, and the event data the route passes in. -/
structure ClickCall where
  now : Nat := 0
  today : Nat := 0
  data : ClickData := {}
deriving DecidableEq, Repr

/-- A whole sequence of `recordClick` calls applied in order. -/
def runClicks (g : String → Option GeoInfo) (l : Url) (calls : List ClickCall) : Url :=
  calls.foldl (fun acc c => recordClick g c.now c.today acc c.data) l

/-- A JS division, `none` standing for the non-finite double (`NaN` or
`±Infinity`) that dividing by zero produces. -/
def jsDiv (a b : Rat) : Option Rat := if b = 0 then none else some (a / b)

/-- The numeric value of `x.toFixed(2)` (and of `Math.round(x * 100) / 100`):
round to two decimals.  `round` on `Rat` is `⌊x + 1/2⌋`, matching JS
`Math.round` half-up behavior. -/
def roundTo2 (q : Rat) : Rat := ((round (q * 100) : Int) : Rat) / 100

/-- One element of the `clicksByDay` series of a summary. -/
structure DaySummary where
  date : Nat
  clicks : Nat
  uniqueVisitors : Nat
  averageTimeOnPage : Rat
  bounceRate : Rat
deriving DecidableEq, Repr

/-- The record returned by `getAnalyticsSummary` (`part_001` lines 377-401).
`averageTimeOnPage` is an `Option` because the source divides by
`recentStats.length` without an emptiness guard. -/
structure Summary where
  totalClicks : Nat
  uniqueClicks : Nat
  recentClicks : Nat
  clicksByDay : List DaySummary
  topCountries : List (String × Nat)
  topDevices : List (String × Nat)
  topBrowsers : List (String × Nat)
  topReferrers : List (String × Nat)
  averageTimeOnPage : Option Rat
  averageClicksPerDay : Rat
  conversionRate : Rat
deriving DecidableEq, Repr

/-- Merge one daily category map into a running aggregate
(`getTopFromMaps`'s inner `forEach`, `part_001` lines 410-414). -/
def mergeCounts (acc m : List (String × Nat)) : List (String × Nat) :=
  m.foldl (fun a p => mapSet a p.1 (mapGetD a p.1 + p.2)) acc

/-- Insert into a count-descending list after every element with a count
`≥` the new one — one step of a stable descending sort, matching the JS
stable `sort((a, b) => b[1] - a[1])`. -/
def insertDesc (p : String × Nat) : List (String × Nat) → List (String × Nat)
  | [] => [p]
  | q :: rest => if q.2 < p.2 then p :: q :: rest else q :: insertDesc p rest

/-- Stable sort by count, descending (ties keep first-seen order). -/
def sortDesc (l : List (String × Nat)) : List (String × Nat) :=
  l.foldl (fun acc p => insertDesc p acc) []

/-- `getTopFromMaps` (`part_001` lines 407-420): aggregate one category map
across the windowed stats, sort descending by count, keep the top 10. -/
def getTopFromMaps (stats : List DailyStat) (key : DailyStat → List (String × Nat)) :
    List (String × Nat) :=
  (sortDesc (stats.foldl (fun acc st => mergeCounts acc (key st)) [])).take 10

/-- `getAnalyticsSummary` (`part_001` lines 369-404).  The source computes
`cutoffDate = now − days` and windows `dailyStats` to `date >= cutoffDate`;
the already-subtracted cutoff day is the parameter here.  Note the guarded
per-day and per-window `averageClicksPerDay` divisions versus the unguarded
window-length division of `averageTimeOnPage`, and `conversionRate` being
`clicks / uniqueClicks` guarded on `uniqueClicks`. -/
def getAnalyticsSummary (l : Url) (cutoff : Nat) : Summary :=
  let recentStats := l.dailyStats.filter (fun st => cutoff ≤ st.date)
  let perDayAvg := fun (st : DailyStat) =>
    if st.timeOnPage.count ≠ 0 then (st.timeOnPage.total : Rat) / (st.timeOnPage.count : Rat)
    else 0
  { totalClicks := l.clicks
    uniqueClicks := l.uniqueClicks
    recentClicks := (recentStats.map (fun st => st.clicks)).sum
    clicksByDay := recentStats.map (fun st =>
      { date := st.date, clicks := st.clicks, uniqueVisitors := st.uniqueVisitors,
        averageTimeOnPage := perDayAvg st, bounceRate := st.bounceRate })
    topCountries := getTopFromMaps recentStats (fun st => st.countries)
    topDevices := getTopFromMaps recentStats (fun st => st.devices)
    topBrowsers := getTopFromMaps recentStats (fun st => st.browsers)
    topReferrers := getTopFromMaps recentStats (fun st => st.referrers)
    averageTimeOnPage := jsDiv ((recentStats.map perDayAvg).sum) (recentStats.length : Rat)
    averageClicksPerDay :=
      if recentStats.length ≠ 0 then
        ((recentStats.map (fun st => st.clicks)).sum : Rat) / (recentStats.length : Rat)
      else 0
    conversionRate :=
      if l.uniqueClicks ≠ 0 then roundTo2 ((l.clicks : Rat) / (l.uniqueClicks : Rat))
      else 0 }

/-- The fields of `express-useragent`'s parse result that the redirect route
reads (`urls.js` lines 260-272).  For an absent or unparseable user-agent
the library yields `isMobile = isTablet = false`. -/
structure UAResult where
  isMobile : Bool := false
  isTablet : Bool := false
  browser : String := "unknown"
  version : String := "unknown"
  os : String := "unknown"
  platform : String := "unknown"
deriving DecidableEq, Repr

/-- The device classification of the redirect route (`urls.js` line 268):
`ua.isMobile ? 'mobile' : ua.isTablet ? 'tablet' : 'desktop'`. -/
def classifyDevice (isMobile isTablet : Bool) : String :=
  if isMobile then "mobile" else if isTablet then "tablet" else "desktop"

/-- The prefix of a string up to (excluding) its first comma — the value of
JS `s.split(',')[0]`. -/
def firstCommaSegment (s : String) : String :=
  (s.data.takeWhile (fun ch => ch ≠ ',')).asString

/-- The language extraction of the redirect route (`urls.js` line 273):
`req.headers['accept-language']?.split(',')[0] || 'unknown'` — an absent
header, and the empty (falsy) first segment of an empty header, both fall
back to `'unknown'`. -/
def languageOf (acceptLanguage : Option String) : String :=
  match acceptLanguage with
  | none => "unknown"
  | some s =>
    let first := firstCommaSegment s
    if first = "" then "unknown" else first

/-- The `analyticsData` object the redirect route assembles (`urls.js`
lines 263-276): classification fields are always present; geo fields are
never present at this point (they are only ever added later by
`recordClick`'s enrichment step). -/
def buildAnalyticsData (now : Nat) (ip uaRaw : String) (ua : UAResult)
    (referer acceptLanguage : Option String)
    (timeOnPageQuery : Option Int) (exitPageQuery : Option String) : ClickData :=
  { timestamp := now
    ipAddress := ip
    userAgent := uaRaw
    referrer := referer.getD ""
    device := some (classifyDevice ua.isMobile ua.isTablet)
    browser := some ua.browser
    browserVersion := some ua.version
    os := some ua.os
    platform := some ua.platform
    language := some (languageOf acceptLanguage)
    timeOnPage := timeOnPageQuery
    exitPage := exitPageQuery }

/-- JS `x || y` on finite numbers: `y` when `x` is `0`, else `x`. -/
def jsOrQ (x y : Rat) : Rat := if x = 0 then y else x

/-- `urlsGrowth` of the `part_000` stats route (line 63):
`lastMonthUrls === 0 ? 100 : ((totalUrls - lastMonthUrls) / lastMonthUrls) * 100`,
where `lastMonthUrls` counts the user's URLs created on or before the
month-ago instant. -/
def urlsGrowthV0 (totalUrls lastMonthUrls : Nat) : Rat :=
  if lastMonthUrls = 0 then 100
  else (((totalUrls : Rat) - (lastMonthUrls : Rat)) / (lastMonthUrls : Rat)) * 100

/-- `clicksGrowth` of the `part_000` stats route (lines 64-65):
`lastMonthClicks.length === 0 ? 100 :`
`((totalClicks - lastMonthClicks[0]?.totalClicks || 0) / (lastMonthClicks[0]?.totalClicks || 1)) * 100`.
`none` models an empty aggregation result (no URLs created before the
month-ago instant); `some b` models a result group with baseline click
total `b`.  The `|| 0` binds to the whole subtraction and the `|| 1`
to the baseline, per JS precedence. -/
def clicksGrowthV0 (totalClicks : Rat) (lastMonthClicks : Option Rat) : Rat :=
  match lastMonthClicks with
  | none => 100
  | some b => jsOrQ (totalClicks - b) 0 / jsOrQ b 1 * 100

/-- `urlGrowth` of the `urls.js` stats route (lines 324-325):
`totalUrls ? (urlsLastMonth.length / totalUrls) * 100 : 0`, where
`urlsLastMonth` are the URLs created within the trailing month. -/
def urlGrowthV1 (urls : List Url) (lastMonth : Nat) : Rat :=
  let totalUrls := urls.length
  let urlsLastMonth := urls.filter (fun u => lastMonth ≤ u.createdAt)
  if totalUrls = 0 then 0 else ((urlsLastMonth.length : Rat) / (totalUrls : Rat)) * 100

/-- `clickGrowth` of the `urls.js` stats route (lines 327-331):
`totalClicks ? (clicksLastMonth / totalClicks) * 100 : 0`, where
`clicksLastMonth` counts analytics-log entries stamped within the trailing
month. -/
def clickGrowthV1 (urls : List Url) (lastMonth : Nat) : Rat :=
  let totalClicks := (urls.map (fun u => u.clicks)).sum
  let clicksLastMonth :=
    (urls.map (fun u => (u.analytics.filter (fun a => lastMonth ≤ a.timestamp)).length)).sum
  if totalClicks = 0 then 0 else ((clicksLastMonth : Rat) / (totalClicks : Rat)) * 100

/-! ## Helper lemmas: the save hook only touches bookkeeping fields -/

theorem preSaveHook_clicks (now : Nat) (l : Url) :
    (preSaveHook now l).clicks = l.clicks := by
  cases h : l.expiresAt <;> simp [preSaveHook, h] <;> split <;> rfl

theorem preSaveHook_uniqueClicks (now : Nat) (l : Url) :
    (preSaveHook now l).uniqueClicks = l.uniqueClicks := by
  cases h : l.expiresAt <;> simp [preSaveHook, h] <;> split <;> rfl

theorem preSaveHook_uniqueVisitors (now : Nat) (l : Url) :
    (preSaveHook now l).uniqueVisitors = l.uniqueVisitors := by
  cases h : l.expiresAt <;> simp [preSaveHook, h] <;> split <;> rfl

theorem preSaveHook_analytics (now : Nat) (l : Url) :
    (preSaveHook now l).analytics = l.analytics := by
  cases h : l.expiresAt <;> simp [preSaveHook, h] <;> split <;> rfl

theorem preSaveHook_dailyStats (now : Nat) (l : Url) :
    (preSaveHook now l).dailyStats = l.dailyStats := by
  cases h : l.expiresAt <;> simp [preSaveHook, h] <;> split <;> rfl

theorem preSaveHook_settings (now : Nat) (l : Url) :
    (preSaveHook now l).settings = l.settings := by
  cases h : l.expiresAt <;> simp [preSaveHook, h] <;> split <;> rfl

theorem preSaveHook_expiresAt (now : Nat) (l : Url) :
    (preSaveHook now l).expiresAt = l.expiresAt := by
  cases h : l.expiresAt <;> simp [preSaveHook, h] <;> split <;> rfl

/-! ## Helper lemmas: geo enrichment and the visitor ledger -/

theorem enrichGeo_ipAddress (s : Settings) (g : String → Option GeoInfo) (d : ClickData) :
    (enrichGeo s g d).ipAddress = d.ipAddress := by
  unfold enrichGeo
  split
  · split <;> rfl
  · rfl

/-- The IP addresses of a visitor ledger, in ledger order. -/
def ipsOf (vs : List Visitor) : List String := vs.map (fun v => v.ipAddress)

theorem updateVisitors_found (now : Nat) (vs : List Visitor) (ip : String) :
    (updateVisitors now vs ip).2 = true ↔ ip ∈ ipsOf vs := by
  induction vs with
  | nil => simp [updateVisitors, ipsOf]
  | cons v rest ih =>
    by_cases h : v.ipAddress = ip
    · simp [updateVisitors, ipsOf, h]
    · simp [updateVisitors, ipsOf, h, ih]
      intro hc
      exact absurd hc.symm h

theorem ipsOf_cons (v : Visitor) (vs : List Visitor) :
    ipsOf (v :: vs) = v.ipAddress :: ipsOf vs := rfl

theorem updateVisitors_ips (now : Nat) (vs : List Visitor) (ip : String) :
    ipsOf (updateVisitors now vs ip).1 =
      if ip ∈ ipsOf vs then ipsOf vs else ipsOf vs ++ [ip] := by
  induction vs with
  | nil => simp [updateVisitors, ipsOf]
  | cons v rest ih =>
    simp only [updateVisitors]
    by_cases h : v.ipAddress = ip
    · rw [if_pos h]
      have hm : ip ∈ ipsOf (v :: rest) := by
        rw [ipsOf_cons, h]; exact List.mem_cons_self _ _
      rw [if_pos hm]
      rfl
    · rw [if_neg h]
      have hne : ip ≠ v.ipAddress := fun hc => h hc.symm
      show v.ipAddress :: ipsOf (updateVisitors now rest ip).1 = _
      rw [ih, ipsOf_cons]
      by_cases h2 : ip ∈ ipsOf rest
      · rw [if_pos h2, if_pos (List.mem_cons.mpr (Or.inr h2))]
      · rw [if_neg h2, if_neg (fun hm => (List.mem_cons.mp hm).elim hne h2),
          List.cons_append]

/-! ## Helper lemmas: one `recordClick` step -/

theorem recordClick_clicks (g : String → Option GeoInfo) (now today : Nat)
    (l : Url) (d : ClickData) :
    (recordClick g now today l d).clicks = l.clicks + 1 := by
  simp [recordClick, preSaveHook_clicks]

theorem recordClick_settings (g : String → Option GeoInfo) (now today : Nat)
    (l : Url) (d : ClickData) :
    (recordClick g now today l d).settings = l.settings := by
  simp [recordClick, preSaveHook_settings]

theorem recordClick_uniqueClicks (g : String → Option GeoInfo) (now today : Nat)
    (l : Url) (d : ClickData) :
    (recordClick g now today l d).uniqueClicks =
      if d.ipAddress ∈ ipsOf l.uniqueVisitors then l.uniqueClicks
      else l.uniqueClicks + 1 := by
  by_cases h : d.ipAddress ∈ ipsOf l.uniqueVisitors <;>
    simp [recordClick, preSaveHook_uniqueClicks, enrichGeo_ipAddress,
      updateVisitors_found, h]

theorem recordClick_ips (g : String → Option GeoInfo) (now today : Nat)
    (l : Url) (d : ClickData) :
    ipsOf (recordClick g now today l d).uniqueVisitors =
      if d.ipAddress ∈ ipsOf l.uniqueVisitors then ipsOf l.uniqueVisitors
      else ipsOf l.uniqueVisitors ++ [d.ipAddress] := by
  simp [recordClick, preSaveHook_uniqueVisitors, enrichGeo_ipAddress, updateVisitors_ips]

theorem recordClick_analytics (g : String → Option GeoInfo) (now today : Nat)
    (l : Url) (d : ClickData) :
    (recordClick g now today l d).analytics =
      (if 1000 < (l.analytics ++ [enrichGeo l.settings g d]).length
       then lastN 1000 (l.analytics ++ [enrichGeo l.settings g d])
       else l.analytics ++ [enrichGeo l.settings g d]) := by
  simp [recordClick, preSaveHook_analytics]

theorem recordClick_dailyStats (g : String → Option GeoInfo) (now today : Nat)
    (l : Url) (d : ClickData) :
    (recordClick g now today l d).dailyStats =
      (if 30 < (updateDailyStats today
          (bumpDaily (enrichGeo l.settings g d)
            (updateVisitors now l.uniqueVisitors (enrichGeo l.settings g d).ipAddress).2)
          l.dailyStats).length
       then lastN 30 (updateDailyStats today
          (bumpDaily (enrichGeo l.settings g d)
            (updateVisitors now l.uniqueVisitors (enrichGeo l.settings g d).ipAddress).2)
          l.dailyStats)
       else updateDailyStats today
          (bumpDaily (enrichGeo l.settings g d)
            (updateVisitors now l.uniqueVisitors (enrichGeo l.settings g d).ipAddress).2)
          l.dailyStats) := by
  simp [recordClick, preSaveHook_dailyStats]

theorem length_lastN (n : Nat) (l : List α) :
    (lastN n l).length = l.length - (l.length - n) := by
  simp [lastN]

/-! ## Helper lemmas: sequences of `recordClick` calls -/

theorem runClicks_nil (g : String → Option GeoInfo) (l : Url) :
    runClicks g l [] = l := rfl

theorem runClicks_cons (g : String → Option GeoInfo) (l : Url)
    (c : ClickCall) (cs : List ClickCall) :
    runClicks g l (c :: cs) = runClicks g (recordClick g c.now c.today l c.data) cs := rfl

theorem runClicks_clicks (g : String → Option GeoInfo) (calls : List ClickCall) :
    ∀ l : Url, (runClicks g l calls).clicks = l.clicks + calls.length := by
  induction calls with
  | nil => intro l; simp [runClicks_nil]
  | cons c cs ih =>
    intro l
    rw [runClicks_cons, ih, recordClick_clicks, List.length_cons]
    omega

/-- The set of IPs seen so far, in first-occurrence order — the abstract
effect of the ledger's `findIndex`-or-push discipline across a call
sequence. -/
def seenFold (acc : List String) (ips : List String) : List String :=
  ips.foldl (fun a i => if i ∈ a then a else a ++ [i]) acc

theorem seenFold_nil (acc : List String) : seenFold acc [] = acc := rfl

theorem seenFold_cons (acc : List String) (i : String) (rest : List String) :
    seenFold acc (i :: rest) = seenFold (if i ∈ acc then acc else acc ++ [i]) rest := rfl

theorem seenFold_spec (ips : List String) :
    ∀ acc : List String, acc.Nodup →
      (seenFold acc ips).Nodup ∧
      (seenFold acc ips).toFinset = acc.toFinset ∪ ips.toFinset := by
  induction ips with
  | nil =>
    intro acc h
    simp [seenFold_nil, h]
  | cons i rest ih =>
    intro acc h
    rw [seenFold_cons]
    by_cases hi : i ∈ acc
    · rw [if_pos hi]
      obtain ⟨h1, h2⟩ := ih acc h
      refine ⟨h1, ?_⟩
      rw [h2]
      ext x
      simp only [Finset.mem_union, List.mem_toFinset, List.toFinset_cons, Finset.mem_insert]
      constructor
      · rintro (hx | hx)
        · exact Or.inl hx
        · exact Or.inr (Or.inr hx)
      · rintro (hx | hx | hx)
        · exact Or.inl hx
        · exact Or.inl (hx ▸ hi)
        · exact Or.inr hx
    · rw [if_neg hi]
      have hnd : (acc ++ [i]).Nodup := by
        rw [List.nodup_append]
        exact ⟨h, List.nodup_singleton i, fun x hx hx1 => by
          rw [List.mem_singleton] at hx1
          exact hi (hx1 ▸ hx)⟩
      obtain ⟨h1, h2⟩ := ih (acc ++ [i]) hnd
      refine ⟨h1, ?_⟩
      rw [h2]
      ext x
      simp only [Finset.mem_union, List.mem_toFinset, List.toFinset_cons,
        Finset.mem_insert, List.mem_append, List.mem_singleton]
      constructor
      · rintro ((hx | hx) | hx)
        · exact Or.inl hx
        · exact Or.inr (Or.inl hx)
        · exact Or.inr (Or.inr hx)
      · rintro (hx | hx | hx)
        · exact Or.inl (Or.inl hx)
        · exact Or.inl (Or.inr hx)
        · exact Or.inr hx

theorem runClicks_ips (g : String → Option GeoInfo) (calls : List ClickCall) :
    ∀ l : Url, ipsOf (runClicks g l calls).uniqueVisitors =
      seenFold (ipsOf l.uniqueVisitors) (calls.map (fun c => c.data.ipAddress)) := by
  induction calls with
  | nil => intro l; simp [runClicks_nil, seenFold_nil]
  | cons c cs ih =>
    intro l
    rw [runClicks_cons, ih, List.map_cons, seenFold_cons, recordClick_ips]

theorem runClicks_uniqueClicks (g : String → Option GeoInfo) (calls : List ClickCall) :
    ∀ l : Url, l.uniqueClicks = (ipsOf l.uniqueVisitors).length →
      (runClicks g l calls).uniqueClicks =
        (ipsOf (runClicks g l calls).uniqueVisitors).length := by
  induction calls with
  | nil => intro l h; simpa [runClicks_nil] using h
  | cons c cs ih =>
    intro l h
    rw [runClicks_cons]
    apply ih
    rw [recordClick_uniqueClicks, recordClick_ips]
    by_cases hm : c.data.ipAddress ∈ ipsOf l.uniqueVisitors
    · rw [if_pos hm, if_pos hm, h]
    · rw [if_neg hm, if_neg hm, h, List.length_append, List.length_singleton]

/-- One bounded append step, as performed on the analytics log: appending to
a list that is the last `K` elements of `es` and re-truncating yields the
last `K` elements of `es ++ [e]`. -/
theorem lastN_snoc (K : Nat) (hK : 0 < K) (es : List α) (e : α) :
    (if K < (lastN K es ++ [e]).length then lastN K (lastN K es ++ [e])
     else lastN K es ++ [e]) = lastN K (es ++ [e]) := by
  rcases le_or_lt K es.length with hle | hlt
  · have hlen : (lastN K es).length = K := by
      rw [length_lastN]; omega
    have hcond : K < (lastN K es ++ [e]).length := by
      rw [List.length_append, hlen, List.length_singleton]; omega
    rw [if_pos hcond]
    unfold lastN
    simp only [List.length_append, List.length_drop, List.length_singleton]
    have h1 : es.length - (es.length - K) + 1 - K = 1 := by omega
    rw [h1, List.drop_append_eq_append_drop,
      @List.drop_append_eq_append_drop _ es [e] (es.length + 1 - K),
      List.length_drop]
    have h2 : 1 - (es.length - (es.length - K)) = 0 := by omega
    have h3 : es.length + 1 - K - es.length = 0 := by omega
    rw [h2, h3, List.drop_zero]
    have hd : List.drop 1 (List.drop (es.length - K) es) =
        List.drop (es.length + 1 - K) es := by
      rw [List.drop_drop]; congr 1; omega
    rw [hd]
  · have hz : es.length - K = 0 := by omega
    have heq : lastN K es = es := by
      unfold lastN; rw [hz, List.drop_zero]
    have hcond : ¬ K < (lastN K es ++ [e]).length := by
      rw [heq, List.length_append, List.length_singleton]; omega
    rw [if_neg hcond, heq]
    unfold lastN
    rw [List.length_append, List.length_singleton]
    have hz2 : es.length + 1 - K = 0 := by omega
    rw [hz2, List.drop_zero]

theorem runClicks_analytics (g : String → Option GeoInfo) (calls : List ClickCall) :
    ∀ (l : Url) (es : List ClickData), l.analytics = lastN 1000 es →
      (runClicks g l calls).analytics =
        lastN 1000 (es ++ calls.map (fun c => enrichGeo l.settings g c.data)) := by
  induction calls with
  | nil => intro l es h; simpa [runClicks_nil] using h
  | cons c cs ih =>
    intro l es h
    rw [runClicks_cons]
    have hstep : (recordClick g c.now c.today l c.data).analytics =
        lastN 1000 (es ++ [enrichGeo l.settings g c.data]) := by
      rw [recordClick_analytics, h]
      exact lastN_snoc 1000 (by omega) es (enrichGeo l.settings g c.data)
    have hset : (recordClick g c.now c.today l c.data).settings = l.settings :=
      recordClick_settings g c.now c.today l c.data
    have := ih (recordClick g c.now c.today l c.data)
      (es ++ [enrichGeo l.settings g c.data]) hstep
    rw [this, hset, List.map_cons, List.append_assoc, List.singleton_append]

/-- The click counter after a call sequence on a fresh link. -/
theorem runClicks_fresh_clicks (g : String → Option GeoInfo) (calls : List ClickCall) :
    (runClicks g freshUrl calls).clicks = calls.length := by
  rw [runClicks_clicks]
  simp [freshUrl]

/-- The unique-click counter after a call sequence on a fresh link counts
the distinct IPs of the sequence. -/
theorem runClicks_fresh_uniqueClicks (g : String → Option GeoInfo) (calls : List ClickCall) :
    (runClicks g freshUrl calls).uniqueClicks =
      ((calls.map (fun c => c.data.ipAddress)).toFinset).card := by
  have h0 : freshUrl.uniqueClicks = (ipsOf freshUrl.uniqueVisitors).length := rfl
  rw [runClicks_uniqueClicks g calls freshUrl h0, runClicks_ips]
  have hfresh : ipsOf freshUrl.uniqueVisitors = [] := rfl
  rw [hfresh]
  obtain ⟨h1, h2⟩ :=
    seenFold_spec (calls.map fun c => c.data.ipAddress) [] List.nodup_nil
  rw [← List.toFinset_card_of_nodup h1, h2, List.toFinset_nil, Finset.empty_union]

/-! ## Claims -/

/-- C3: for every sequence of `recordClick` calls on a freshly created link,
after all calls complete, `clicks` equals the total number of calls and
`uniqueClicks` equals the number of distinct IP addresses among the calls
(so pairwise-distinct IPs give `clicks = uniqueClicks = N`, and a single
repeated IP gives `clicks = N` and `uniqueClicks = 1`). -/
theorem claim_C3_recordClick_counters (g : String → Option GeoInfo)
    (calls : List ClickCall) :
    (runClicks g freshUrl calls).clicks = calls.length ∧
    (runClicks g freshUrl calls).uniqueClicks =
      ((calls.map (fun c => c.data.ipAddress)).toFinset).card :=
  ⟨runClicks_fresh_clicks g calls, runClicks_fresh_uniqueClicks g calls⟩

/-- C4: after every `recordClick` call — on any prior link state — the
analytics log holds at most 1000 entries and `dailyStats` holds at most 30
entries; and across any call sequence from a fresh link the log is exactly
the most recent 1000 recorded events in chronological order (`lastN 1000`
of the enriched event sequence), i.e. eviction drops oldest entries
first. -/
theorem claim_C4_bounded_logs :
    (∀ (g : String → Option GeoInfo) (now today : Nat) (l : Url) (d : ClickData),
      (recordClick g now today l d).analytics.length ≤ 1000 ∧
      (recordClick g now today l d).dailyStats.length ≤ 30) ∧
    (∀ (g : String → Option GeoInfo) (calls : List ClickCall),
      (runClicks g freshUrl calls).analytics =
        lastN 1000 (calls.map (fun c => enrichGeo freshUrl.settings g c.data))) := by
  constructor
  · intro g now today l d
    constructor
    · rw [recordClick_analytics]
      split
      · rw [length_lastN]; omega
      · next h => omega
    · rw [recordClick_dailyStats]
      split
      · rw [length_lastN]; omega
      · next h => omega
  · intro g calls
    have h0 : freshUrl.analytics = lastN 1000 [] := rfl
    have := runClicks_analytics g calls freshUrl [] h0
    simpa using this

/-- C10: for every link whose `expiresAt` is unset, `checkExpiration`
returns `false` and performs no state change at all — the link comes back
bit-for-bit identical, so such a link is never transitioned to `expired`
through this path. -/
theorem claim_C10_noExpiry_noop (now : Nat) (l : Url) (h : l.expiresAt = none) :
    checkExpiration now l = (false, l) := by
  simp [checkExpiration, h]

/-- Witness for C10 at a concrete input: the fresh link has no expiry and
`checkExpiration` is an identity on it. -/
theorem claim_C10_witness :
    freshUrl.expiresAt = none ∧ checkExpiration 12345 freshUrl = (false, freshUrl) :=
  ⟨rfl, claim_C10_noExpiry_noop 12345 freshUrl rfl⟩

/-- C6: on a link whose `expiresAt` is set and in the past and whose
`isExpired` flag is not yet set, `checkExpiration` returns `true`, sets
`isExpired` and transitions `status` to `expired`; any later call (at any
later instant still past the expiry) again returns `true` but leaves the
state exactly unchanged — the transition happens exactly once. -/
theorem claim_C6_lazy_expiration (l : Url) (t now nowLater : Nat)
    (hexp : l.expiresAt = some t) (hpast : t < now) (hflag : l.isExpired = false)
    (hpast2 : t < nowLater) :
    (checkExpiration now l).1 = true ∧
    (checkExpiration now l).2.isExpired = true ∧
    (checkExpiration now l).2.status = Status.expired ∧
    checkExpiration nowLater (checkExpiration now l).2 =
      (true, (checkExpiration now l).2) := by
  have hstep : checkExpiration now l =
      (true, preSaveHook now { l with isExpired := true, status := Status.expired }) := by
    simp [checkExpiration, hexp, hpast, hflag]
  have hhook : preSaveHook now { l with isExpired := true, status := Status.expired } =
      { l with isExpired := true, status := Status.expired, updatedAt := now } := by
    simp [preSaveHook, hexp, hpast]
  rw [hstep, hhook]
  refine ⟨rfl, rfl, rfl, ?_⟩
  simp [checkExpiration, hexp, hpast2]

/-- The concrete expired link used to witness C6. -/
def linkC6 : Url := { expiresAt := some 10 }

/-- Witness for C6 at a concrete input: expiry at 10, first check at 11,
second at 12. -/
theorem claim_C6_witness :
    linkC6.expiresAt = some 10 ∧ linkC6.isExpired = false ∧
    ((checkExpiration 11 linkC6).1 = true ∧
     (checkExpiration 11 linkC6).2.isExpired = true ∧
     (checkExpiration 11 linkC6).2.status = Status.expired ∧
     checkExpiration 12 (checkExpiration 11 linkC6).2 =
       (true, (checkExpiration 11 linkC6).2)) :=
  ⟨rfl, rfl, claim_C6_lazy_expiration linkC6 10 11 12 rfl (by decide) rfl (by decide)⟩

/-- C2 (amended): the Redirect Gateway issues its response (redirect or
delayed page) iff `checkExpiration` is false, i.e. iff `expiresAt` is unset
or `now ≤ expiresAt`.  The route never consults `status`: the claimed
condition that `status` be neither `expired` nor `blocked` is not part of
the gate (see the counterexample), and the boundary is `now ≤ expiresAt`,
not `expiresAt > now`. -/
theorem claim_C2_amended_gateway (l : Url) (now : Nat) :
    (redirectGateway now l).1 = true ↔
      (l.expiresAt = none ∨ ∃ t, l.expiresAt = some t ∧ now ≤ t) := by
  cases h : l.expiresAt with
  | none => simp [redirectGateway, checkExpiration, h]
  | some t =>
    by_cases hb : l.isExpired <;> by_cases ht : t < now <;>
      simp [redirectGateway, checkExpiration, h, hb, ht] <;> omega

/-- The concrete blocked link refuting C2 as stated. -/
def blockedLink : Url := { status := .blocked }

/-- C2 counterexample: a link with `status = blocked` (and no `expiresAt`)
passes the gate and is redirected, contradicting the claim that a blocked
link is never redirected. -/
theorem claim_C2_counterexample :
    blockedLink.status = Status.blocked ∧ blockedLink.expiresAt = none ∧
    (redirectGateway 1000 blockedLink).1 = true :=
  ⟨rfl, rfl, rfl⟩

/-- C5: on a link with no windowed daily stats (e.g. a fresh link with zero
clicks), the unguarded `recentStats.reduce(...) / recentStats.length`
computes `0 / 0`, producing `NaN` (modelled `none`) — not the `0` the claim
requires — while the adjacent `averageClicksPerDay`, which does carry the
`recentStats.length ?` guard, correctly returns `0`.  This evaluates the
code at the failing input of the code-bug record. -/
theorem claim_C5_avgTimeOnPage_division_by_zero (cutoff : Nat) :
    (getAnalyticsSummary freshUrl cutoff).averageTimeOnPage = none ∧
    (getAnalyticsSummary freshUrl cutoff).averageClicksPerDay = 0 := by
  constructor <;> simp [getAnalyticsSummary, jsDiv, freshUrl]

/-- C8 (amended): visitor classification is deterministic and total (a
total Lean function), but the device field is computed by the ternary chain
`isMobile ? mobile : isTablet ? tablet : desktop`, so it is one of
`mobile`/`tablet`/`desktop` and never `other`; an unknown or unparseable
user-agent (which parses with both flags false) yields `desktop`, and a
missing or empty `accept-language` header yields `'unknown'`, not the empty
string.  `'other'` exists only as the schema default, never produced on
this path. -/
theorem claim_C8_amended_classifier :
    (∀ isMobile isTablet : Bool,
      classifyDevice isMobile isTablet ≠ "other" ∧
      (classifyDevice isMobile isTablet = "mobile" ∨
       classifyDevice isMobile isTablet = "tablet" ∨
       classifyDevice isMobile isTablet = "desktop")) ∧
    classifyDevice false false = "desktop" ∧
    languageOf none = "unknown" ∧
    languageOf (some "") = "unknown" := by
  refine ⟨?_, rfl, rfl, by decide⟩
  intro m t
  cases m <;> cases t <;> exact ⟨by decide, by decide⟩

/-- C8 counterexample: an unknown/unparseable user-agent parses with
`isMobile = isTablet = false` and is classified `desktop`, not the claimed
`other`. -/
theorem claim_C8_counterexample :
    classifyDevice false false = "desktop" ∧ ("desktop" : String) ≠ "other" :=
  ⟨rfl, by decide⟩

/-- C9 (amended): geo fields are attached to the recorded event iff the
event's IP is truthy AND `settings.trackLocation` is on AND the geoip
lookup actually resolves (best-effort enrichment, silently skipped on a
failed lookup); the device/browser classification fields are always present
on the event the redirect route builds — `settings.trackDeviceInfo` is
never consulted anywhere on this path. -/
theorem claim_C9_amended_enrichment (s : Settings) (g : String → Option GeoInfo)
    (now : Nat) (ip uaRaw : String) (ua : UAResult)
    (referer acceptLanguage : Option String)
    (timeOnPageQuery : Option Int) (exitPageQuery : Option String) :
    ((enrichGeo s g (buildAnalyticsData now ip uaRaw ua referer acceptLanguage
        timeOnPageQuery exitPageQuery)).country.isSome = true ↔
      (ip ≠ "" ∧ s.trackLocation = true ∧ (g ip).isSome = true)) ∧
    (buildAnalyticsData now ip uaRaw ua referer acceptLanguage
        timeOnPageQuery exitPageQuery).device.isSome = true := by
  refine ⟨?_, rfl⟩
  by_cases h1 : ip = ""
  · simp [enrichGeo, buildAnalyticsData, h1]
  · by_cases h2 : s.trackLocation = true
    · cases hg : g ip with
      | none => simp [enrichGeo, buildAnalyticsData, h1, h2, hg]
      | some geo => simp [enrichGeo, buildAnalyticsData, h1, h2, hg]
    · simp [enrichGeo, buildAnalyticsData, h1, h2]

/-- Per-link settings with device tracking switched off (location tracking
still at its default `true`), for the C9 counterexample. -/
def settingsC9 : Settings := { trackDeviceInfo := false }

/-- The event the redirect route builds for a private-range IP (for which
`geoip.lookup` returns null) — C9 counterexample data. -/
def dataC9 : ClickData :=
  buildAnalyticsData 0 "10.0.0.1" "curl/8" {} none none none none

/-- C9 counterexample: with `trackLocation = true` but a lookup that does
not resolve, no geo field is attached (refuting "geo fields added iff
`trackLocation`"), and with `trackDeviceInfo = false` the event still
carries a device classification (refuting "device fields added iff
`trackDeviceInfo`"). -/
theorem claim_C9_counterexample :
    settingsC9.trackLocation = true ∧
    (enrichGeo settingsC9 (fun _ => none) dataC9).country = none ∧
    settingsC9.trackDeviceInfo = false ∧
    dataC9.device = some "desktop" := by
  refine ⟨rfl, by decide, rfl, rfl⟩

/-- A link created before the trailing-month boundary of the C7 scenario. -/
def linkOlderThanMonth : Url := { createdAt := 0 }

/-- A link created inside the trailing month of the C7 scenario. -/
def linkRecent : Url := { createdAt := 100 }

/-- C7 (amended): the `part_000` stats route does compute URL growth as
`(current − monthAgoBaseline) / monthAgoBaseline × 100` with growth 100
when the baseline count is 0 — in particular baseline `totalUrls = 1` and a
current total of 2 gives `urlsGrowth = 100`; its click growth follows the
same formula when the baseline aggregation is missing (100) or nonzero, but
a present-and-zero click baseline yields `totalClicks × 100` (the `|| 1`
fallback), not 100; and the `urls.js` stats route computes URL growth by a
different formula entirely — the share `urlsLastMonth / totalUrls × 100` —
which yields 50, not 100, on the claim's own scenario. -/
theorem claim_C7_amended_growth :
    urlsGrowthV0 2 1 = 100 ∧
    (∀ totalUrls : Nat, urlsGrowthV0 totalUrls 0 = 100) ∧
    (∀ totalClicks : Rat, clicksGrowthV0 totalClicks none = 100) ∧
    (∀ totalClicks baseline : Rat,
      clicksGrowthV0 totalClicks (some baseline) =
        if baseline = 0 then totalClicks * 100
        else (totalClicks - baseline) / baseline * 100) ∧
    urlGrowthV1 [linkOlderThanMonth, linkRecent] 50 = 50 := by
  refine ⟨by norm_num [urlsGrowthV0], fun t => by simp [urlsGrowthV0],
    fun tc => rfl, ?_, ?_⟩
  · intro tc b
    by_cases hb : b = 0
    · by_cases htc : tc = 0 <;> simp [clicksGrowthV0, jsOrQ, hb, htc]
    · by_cases hd : tc - b = 0
      · simp [clicksGrowthV0, jsOrQ, hb, hd]
      · simp [clicksGrowthV0, jsOrQ, hb, hd]
  · norm_num [urlGrowthV1, linkOlderThanMonth, linkRecent, List.filter]

/-- C7 counterexample: on the claim's own scenario (a current total of 2
links, 1 of them at the month-ago baseline), the `urls.js` implementation
of the ReportAggregator returns `urlGrowth = 50` where the claimed formula
(computed by the `part_000` implementation) gives 100. -/
theorem claim_C7_counterexample :
    urlGrowthV1 [linkOlderThanMonth, linkRecent] 50 = 50 ∧
    urlsGrowthV0 2 1 = 100 ∧ ((50 : Rat) ≠ 100) := by
  refine ⟨?_, by norm_num [urlsGrowthV0], by norm_num⟩
  norm_num [urlGrowthV1, linkOlderThanMonth, linkRecent, List.filter]

/-- The link exhibiting the C1 divergence: 4 total clicks from 2 distinct
visitors.  (Reachable by two clicks from each of two IPs.) -/
def linkC1 : Url := { clicks := 4, uniqueClicks := 2 }

/-- C1 counterexample: on a link with `clicks = 4` and `uniqueClicks = 2`
the code returns `conversionRate = 2` (it computes
`clicks / uniqueClicks`, guarded on `uniqueClicks`), whereas the claimed
`uniqueClicks / clicks` rounded to two decimals is `0.5`. -/
theorem claim_C1_counterexample :
    (getAnalyticsSummary linkC1 0).conversionRate = 2 ∧
    roundTo2 ((linkC1.uniqueClicks : Rat) / (linkC1.clicks : Rat)) = 1 / 2 ∧
    ((2 : Rat) ≠ 1 / 2) := by
  refine ⟨?_, ?_, by norm_num⟩
  · have h : (getAnalyticsSummary linkC1 0).conversionRate =
        roundTo2 (((4 : Nat) : Rat) / ((2 : Nat) : Rat)) := by
      simp [getAnalyticsSummary, linkC1]
    rw [h, roundTo2, round_eq]
    norm_num
  · show roundTo2 (((2 : Nat) : Rat) / ((4 : Nat) : Rat)) = 1 / 2
    rw [roundTo2, round_eq]
    norm_num

/-- C1 (amended): for every link reached from a fresh link by a
`recordClick` sequence, `getAnalyticsSummary` returns `conversionRate`
equal to `clicks / uniqueClicks` (total calls over distinct IPs) rounded to
two decimals when `uniqueClicks` is nonzero — i.e. whenever any call was
recorded — and `0` on the empty sequence; in particular a link with zero
clicks still returns 0 (the guard sits on `uniqueClicks`, which is zero
exactly when `clicks` is). -/
theorem claim_C1_amended_conversionRate (g : String → Option GeoInfo)
    (calls : List ClickCall) (cutoff : Nat) :
    (getAnalyticsSummary (runClicks g freshUrl calls) cutoff).conversionRate =
      if calls = [] then 0
      else roundTo2 ((calls.length : Rat) /
        (((calls.map (fun c => c.data.ipAddress)).toFinset.card : Nat) : Rat)) := by
  have hconv : (getAnalyticsSummary (runClicks g freshUrl calls) cutoff).conversionRate =
      if (runClicks g freshUrl calls).uniqueClicks ≠ 0 then
        roundTo2 (((runClicks g freshUrl calls).clicks : Rat) /
          ((runClicks g freshUrl calls).uniqueClicks : Rat))
      else 0 := by
    simp [getAnalyticsSummary]
  rw [hconv, runClicks_fresh_clicks, runClicks_fresh_uniqueClicks]
  cases calls with
  | nil => simp
  | cons c cs =>
    have hne : ((c :: cs).map (fun c => c.data.ipAddress)).toFinset.card ≠ 0 := by
      have : 0 < ((c :: cs).map (fun c => c.data.ipAddress)).toFinset.card :=
        Finset.card_pos.mpr ⟨c.data.ipAddress, by simp⟩
      omega
    simp [hne]

end UrlShortner
